import Mathlib

/-!
Verification of the autogyro kite-line physics model (`src/services/physicsEngine.ts`,
function `calculatePhysics`) against its natural-language specification.

The source is a pure numeric function; it is embedded here over the real
numbers.  Every intermediate quantity of the source (effective angle of
attack, tip-speed ratio, regime-dependent forces, anchor vectors) becomes a
named Lean definition, and the returned `SimulationResult` is assembled from
those values rounded exactly as the source's return statement rounds them
(`Math.round` for integers, `toFixed(1)` / `toFixed(2)` for one / two
decimals, modelled as round-half-up at the corresponding scale).
-/

noncomputable section

open Real

/-- Input record of the model, mirroring `DesignParams` of `src/types.ts`. -/
structure DesignParams where
  bladeLength : ℝ
  bladeChord : ℝ
  bladePitch : ℝ
  rotorMass : ℝ
  lineTension : ℝ
  lineAngle : ℝ
  windSpeed : ℝ
  hubDiameter : ℝ
  rotorTilt : ℝ

/-- Output sub-record `AnchorAnalysis` of `src/types.ts`. -/
structure AnchorAnalysis where
  anchorTension : ℝ
  anchorAngle : ℝ
  lowerLineTensionX : ℝ
  lowerLineTensionY : ℝ

/-- Output sub-record `BladeAerodynamics` of `src/types.ts`. -/
structure BladeAerodynamics where
  advancingVelocity : ℝ
  retreatingVelocity : ℝ
  inflowVelocity : ℝ
  advancingAoA : ℝ
  retreatingAoA : ℝ
  advanceRatio : ℝ
  reynoldsNumber : ℝ

/-- Output record `SimulationResult` of `src/types.ts`. -/
structure SimulationResult where
  rpm : ℝ
  generatedThrust : ℝ
  totalRotorThrust : ℝ
  lift : ℝ
  drag : ℝ
  gravity : ℝ
  tipSpeed : ℝ
  tipSpeedRatio : ℝ
  stabilityScore : ℝ
  powerOutput : ℝ
  angleOfAttack : ℝ
  anchorAnalysis : AnchorAnalysis
  bladeAerodynamics : BladeAerodynamics

/-- Two-argument arctangent, the embedding of JavaScript `Math.atan2(y, x)`:
angle of the point `(x, y)` in `(-pi, pi]`, with `atan2 0 0 = 0`. -/
def atan2 (y x : ℝ) : ℝ :=
  if 0 < x then Real.arctan (y / x)
  else if x < 0 then
    (if 0 ≤ y then Real.arctan (y / x) + Real.pi else Real.arctan (y / x) - Real.pi)
  else
    (if 0 < y then Real.pi / 2 else if y < 0 then -(Real.pi / 2) else 0)

/-- Embedding of JavaScript `Math.round`: nearest integer, halves up, as a real. -/
def round0 (x : ℝ) : ℝ := ((round x : ℤ) : ℝ)

/-- Embedding of `parseFloat(x.toFixed(1))`: rounding to one decimal place. -/
def round1 (x : ℝ) : ℝ := ((round (x * 10) : ℤ) : ℝ) / 10

/-- Embedding of `parseFloat(x.toFixed(2))`: rounding to two decimal places. -/
def round2 (x : ℝ) : ℝ := ((round (x * 100) : ℤ) : ℝ) / 100

/-- The two successive clamping conditionals of the source applied to the raw
effective angle of attack: values below -90 and above 90 are clamped. -/
def clamp90 (x : ℝ) : ℝ :=
  if x < -90 then -90 else if x > 90 then 90 else x

/-- Source line 35/38-39: `effectiveAlphaDeg = (90 - lineAngle) + rotorTilt`,
clamped to [-90, 90]. -/
def effectiveAlphaDeg (p : DesignParams) : ℝ :=
  clamp90 ((90 - p.lineAngle) + p.rotorTilt)

/-- Source line 41: `alphaRad = effectiveAlphaDeg * (Math.PI / 180)`. -/
def alphaRad (p : DesignParams) : ℝ :=
  effectiveAlphaDeg p * (Real.pi / 180)

/-- Source lines 46-67: the piecewise tip-speed-ratio curve over the effective
angle of attack in degrees (dead zone up to 1.5, linear ramp to the peak 8.5 at
15, linear decay to the windmill value 3.5 at 90). -/
def rawTSR (a : ℝ) : ℝ :=
  if a ≤ 1.5 then 0
  else if a < 15 then (a / 15) * 8.5
  else 8.5 * (1 - (a - 15) / (90 - 15)) + 3.5 * ((a - 15) / (90 - 15))

/-- Source line 70: `minWindToSpin = (rotorMass * 0.5) + 1`. -/
def minWindToSpin (p : DesignParams) : ℝ := p.rotorMass * 0.5 + 1

/-- Source lines 71-73: the inertia/friction damping factor multiplied onto the
raw tip-speed ratio; it is 1 outside the damped branch. -/
def dampingFactor (p : DesignParams) : ℝ :=
  if p.windSpeed < minWindToSpin p then max 0 (p.windSpeed / minWindToSpin p) else 1

/-- The tip-speed ratio after inertia damping (`expectedTipSpeedRatio` of the
source after lines 46-73 have run). -/
def expectedTipSpeedRatio (p : DesignParams) : ℝ :=
  rawTSR (effectiveAlphaDeg p) * dampingFactor p

/-- Source line 75: `tipSpeed = windSpeed * expectedTipSpeedRatio`. -/
def tipSpeed (p : DesignParams) : ℝ := p.windSpeed * expectedTipSpeedRatio p

/-- Source line 76: `radsPerSecond = tipSpeed / rotorRadius` with
`rotorRadius = bladeLength`. -/
def radsPerSecond (p : DesignParams) : ℝ := tipSpeed p / p.bladeLength

/-- Source line 77: `rpm = (radsPerSecond * 60) / (2 * Math.PI)`, before the
final `Math.round` of the return statement. -/
def rpmRaw (p : DesignParams) : ℝ := radsPerSecond p * 60 / (2 * Real.pi)

/-- Source line 25: `bladeArea = bladeCount * bladeLength * bladeChord` with
`bladeCount = 2`. -/
def bladeArea (p : DesignParams) : ℝ := 2 * p.bladeLength * p.bladeChord

/-- Source line 24: `rotorDiskArea = Math.PI * rotorRadius^2`. -/
def rotorDiskArea (p : DesignParams) : ℝ := Real.pi * p.bladeLength ^ 2

/-- Source line 86: `gravity = rotorMass * 9.81`. -/
def gravity (p : DesignParams) : ℝ := p.rotorMass * 9.81

/-- Source line 106 (spinning branch): inflow component
`v_inflow = windSpeed * sin(alphaRad)`. -/
def vInflow (p : DesignParams) : ℝ := p.windSpeed * Real.sin (alphaRad p)

/-- Source line 112: tangential velocity at 75% span, `v_tan_75 = tipSpeed * 0.75`. -/
def vTan75 (p : DesignParams) : ℝ := tipSpeed p * 0.75

/-- Source lines 103/109: dynamic pressure from the mean-square tangential
velocity `tipSpeed^2 / 3` and the inflow component. -/
def dynamicPressure (p : DesignParams) : ℝ :=
  0.5 * 1.225 * (tipSpeed p ^ 2 / 3 + vInflow p ^ 2)

/-- Source line 113: local inflow angle `phi = atan2(v_inflow, v_tan_75)`. -/
def phi (p : DesignParams) : ℝ := atan2 (vInflow p) (vTan75 p)

/-- Source line 116: `effPitchRad = bladePitch * (Math.PI / 180)`. -/
def effPitchRad (p : DesignParams) : ℝ := p.bladePitch * (Real.pi / 180)

/-- Source line 117: local angle of attack `alphaLocal = phi + effPitchRad`. -/
def alphaLocal (p : DesignParams) : ℝ := phi p + effPitchRad p

/-- Source lines 121-125: lift coefficient, linear with slope 5.5 then the two
sequential stall overwrites (1.0 past 0.22, 0.8 past 0.35). -/
def clVal (p : DesignParams) : ℝ :=
  if alphaLocal p > 0.35 then 0.8
  else if alphaLocal p > 0.22 then 1.0
  else 5.5 * alphaLocal p

/-- Source line 128: `liftForce = dynamicPressure * bladeArea * cl`. -/
def liftForce (p : DesignParams) : ℝ := dynamicPressure p * bladeArea p * clVal p

/-- Source lines 131-132: profile-plus-induced drag coefficient and drag force. -/
def dragForce (p : DesignParams) : ℝ :=
  dynamicPressure p * bladeArea p * (0.012 + 0.05 * clVal p ^ 2)

/-- Source line 135: unclamped rotor-axis thrust
`liftForce * cos(phi) + dragForce * sin(phi)`. -/
def thrustUnclamped (p : DesignParams) : ℝ :=
  liftForce p * Real.cos (phi p) + dragForce p * Real.sin (phi p)

/-- Source lines 138-140: maximum-thrust-coefficient bound
`0.5 * airDensity * windSpeed^2 * rotorDiskArea * 1.3`. -/
def maxThrust (p : DesignParams) : ℝ :=
  0.5 * 1.225 * p.windSpeed ^ 2 * rotorDiskArea p * 1.3

/-- Source lines 142-144: rotor-axis thrust in the spinning branch after the
upper clamp. -/
def spinThrust (p : DesignParams) : ℝ :=
  if thrustUnclamped p > maxThrust p then maxThrust p else thrustUnclamped p

/-- Source line 152: wind component parallel to the disc,
`v_parallel = windSpeed * cos(alphaRad)`. -/
def vParallel (p : DesignParams) : ℝ := p.windSpeed * Real.cos (alphaRad p)

/-- Source line 174 (stationary branch): flat-plate drag
`0.5 * airDensity * windSpeed^2 * bladeArea * 1.2 * sin(alphaRad)`. -/
def stationaryDrag (p : DesignParams) : ℝ :=
  0.5 * 1.225 * p.windSpeed ^ 2 * bladeArea p * 1.2 * Real.sin (alphaRad p)

/-- The regime switch of source line 98: the spinning branch is taken exactly
when the computed (pre-rounding) rpm exceeds 10. -/
def totalRotorThrust (p : DesignParams) : ℝ :=
  if 10 < rpmRaw p then spinThrust p else stationaryDrag p

/-- Source lines 147/176: world-vertical lift, zero in the stationary branch. -/
def liftVal (p : DesignParams) : ℝ :=
  if 10 < rpmRaw p then spinThrust p * Real.cos (alphaRad p) else 0

/-- Source lines 148/175: world-horizontal drag; the spinning branch adds the
parasitic term `dragForce * 0.5`. -/
def dragVal (p : DesignParams) : ℝ :=
  if 10 < rpmRaw p then spinThrust p * Real.sin (alphaRad p) + dragForce p * 0.5
  else stationaryDrag p

/-- Source lines 89/158: advancing-blade tangential velocity, zero when not
spinning. -/
def advVel (p : DesignParams) : ℝ :=
  if 10 < rpmRaw p then vTan75 p + vParallel p else 0

/-- Source lines 90/159: retreating-blade tangential velocity, zero when not
spinning. -/
def retVel (p : DesignParams) : ℝ :=
  if 10 < rpmRaw p then vTan75 p - vParallel p else 0

/-- Source lines 91/106: resolved inflow velocity (zero when not spinning). -/
def vInflowVal (p : DesignParams) : ℝ :=
  if 10 < rpmRaw p then vInflow p else 0

/-- Source lines 94/153: advance ratio `mu = v_parallel / tipSpeed`, zero when
not spinning. -/
def advanceRatioVal (p : DesignParams) : ℝ :=
  if 10 < rpmRaw p then vParallel p / tipSpeed p else 0

/-- Source lines 92/163/166: advancing-blade angle of attack in degrees. -/
def advAoA (p : DesignParams) : ℝ :=
  if 10 < rpmRaw p then
    (atan2 (vInflow p) (vTan75 p + vParallel p) + effPitchRad p) * (180 / Real.pi)
  else 0

/-- Source lines 93/164/167: retreating-blade angle of attack in degrees. -/
def retAoA (p : DesignParams) : ℝ :=
  if 10 < rpmRaw p then
    (atan2 (vInflow p) (vTan75 p - vParallel p) + effPitchRad p) * (180 / Real.pi)
  else 0

/-- Source lines 96/170: Reynolds number at 75% span,
`(v_tan_75 * bladeChord) / 1.48e-5`, zero when not spinning. -/
def reynolds (p : DesignParams) : ℝ :=
  if 10 < rpmRaw p then vTan75 p * p.bladeChord / 1.48e-5 else 0

/-- Source line 181: `tiltRad = rotorTilt * (Math.PI / 180)`. -/
def tiltRad (p : DesignParams) : ℝ := p.rotorTilt * (Real.pi / 180)

/-- Source line 182: `generatedThrust = totalRotorThrust * cos(tiltRad)`. -/
def generatedThrust (p : DesignParams) : ℝ :=
  totalRotorThrust p * Real.cos (tiltRad p)

/-- Source line 185: the stability heuristic
`min(100, max(0, 100 - 3*TSR - 2*|rotorTilt|))`. -/
def stabilityScoreVal (p : DesignParams) : ℝ :=
  min 100 (max 0 (100 - expectedTipSpeedRatio p * 3 - |p.rotorTilt| * 2))

/-- Source line 188: `powerOutput = generatedThrust * windSpeed * 0.3`. -/
def powerOutput (p : DesignParams) : ℝ := generatedThrust p * p.windSpeed * 0.3

/-- Source line 192: vertical kite-side force component. -/
def fKiteY (p : DesignParams) : ℝ :=
  p.lineTension * Real.sin (p.lineAngle * (Real.pi / 180))

/-- Source line 193: horizontal kite-side force component. -/
def fKiteX (p : DesignParams) : ℝ :=
  p.lineTension * Real.cos (p.lineAngle * (Real.pi / 180))

/-- Source line 195: vertical rotor-side force component `lift - gravity`. -/
def fRotorY (p : DesignParams) : ℝ := liftVal p - gravity p

/-- Source line 196: horizontal rotor-side force component `drag`. -/
def fRotorX (p : DesignParams) : ℝ := dragVal p

/-- Source line 198: x component of the anchor resultant. -/
def anchorX (p : DesignParams) : ℝ := fKiteX p + fRotorX p

/-- Source line 199: y component of the anchor resultant. -/
def anchorY (p : DesignParams) : ℝ := fKiteY p + fRotorY p

/-- Source line 201: anchor tension, the Euclidean magnitude of the resultant. -/
def anchorTensionVal (p : DesignParams) : ℝ :=
  Real.sqrt (anchorX p ^ 2 + anchorY p ^ 2)

/-- Source lines 202-203: anchor angle `atan2(y, x)` converted to degrees. -/
def anchorAngleDeg (p : DesignParams) : ℝ :=
  atan2 (anchorY p) (anchorX p) * (180 / Real.pi)

/-- The full model, source lines 9-234: the returned `SimulationResult`, each
field rounded exactly as in the return statement (lines 206-233). -/
def calculatePhysics (p : DesignParams) : SimulationResult where
  rpm := round0 (rpmRaw p)
  generatedThrust := round2 (generatedThrust p)
  totalRotorThrust := round2 (totalRotorThrust p)
  lift := round2 (liftVal p)
  drag := round2 (dragVal p)
  gravity := round2 (gravity p)
  tipSpeed := round2 (tipSpeed p)
  tipSpeedRatio := round2 (expectedTipSpeedRatio p)
  stabilityScore := round0 (stabilityScoreVal p)
  powerOutput := round2 (powerOutput p)
  angleOfAttack := round1 (effectiveAlphaDeg p)
  anchorAnalysis :=
    { anchorTension := round2 (anchorTensionVal p)
      anchorAngle := round1 (anchorAngleDeg p)
      lowerLineTensionX := round2 (anchorX p)
      lowerLineTensionY := round2 (anchorY p) }
  bladeAerodynamics :=
    { advancingVelocity := round1 (advVel p)
      retreatingVelocity := round1 (retVel p)
      inflowVelocity := round2 (vInflowVal p)
      advancingAoA := round1 (advAoA p)
      retreatingAoA := round1 (retAoA p)
      advanceRatio := round2 (advanceRatioVal p)
      reynoldsNumber := round0 (reynolds p) }

/-! ### Helper lemmas -/

lemma round_mono' {x y : ℝ} (h : x ≤ y) : round x ≤ round y := by
  rw [round_eq, round_eq]
  exact Int.floor_mono (by linarith)

lemma round_eq_of_bounds {x : ℝ} {n : ℤ} (h1 : (n : ℝ) ≤ x + 1 / 2)
    (h2 : x + 1 / 2 < (n : ℝ) + 1) : round x = n := by
  rw [round_eq]
  exact Int.floor_eq_iff.mpr ⟨h1, h2⟩

lemma round0_zero : round0 0 = 0 := by
  simp [round0]

lemma round1_zero : round1 0 = 0 := by
  simp [round1]

lemma round2_zero : round2 0 = 0 := by
  simp [round2]

lemma round2_mono {x y : ℝ} (h : x ≤ y) : round2 x ≤ round2 y := by
  unfold round2
  have := round_mono' (x := x * 100) (y := y * 100) (by nlinarith)
  have : ((round (x * 100) : ℤ) : ℝ) ≤ ((round (y * 100) : ℤ) : ℝ) := by
    exact_mod_cast this
  linarith

lemma round0_nonneg {x : ℝ} (h : 0 ≤ x) : 0 ≤ round0 x := by
  have h0 := round_mono' (x := (0 : ℝ)) (y := x) h
  rw [round_zero] at h0
  unfold round0
  exact_mod_cast h0

lemma round0_le_100 {x : ℝ} (h : x ≤ 100) : round0 x ≤ 100 := by
  have := round_mono' (x := x) (y := (100 : ℝ)) h
  rw [show ((100 : ℝ)) = ((100 : ℤ) : ℝ) by norm_num, round_intCast] at this
  unfold round0
  exact_mod_cast this

lemma effectiveAlphaDeg_le (p : DesignParams) : effectiveAlphaDeg p ≤ 90 := by
  unfold effectiveAlphaDeg clamp90
  split_ifs <;> linarith

lemma neg_le_effectiveAlphaDeg (p : DesignParams) : -90 ≤ effectiveAlphaDeg p := by
  unfold effectiveAlphaDeg clamp90
  split_ifs <;> linarith

lemma rawTSR_nonneg {a : ℝ} (h : a ≤ 90) : 0 ≤ rawTSR a := by
  unfold rawTSR
  split_ifs <;> linarith

lemma rawTSR_le {a : ℝ} : rawTSR a ≤ 8.5 := by
  unfold rawTSR
  split_ifs <;> linarith

lemma rawTSR_peak : rawTSR 15 = 8.5 := by
  unfold rawTSR
  norm_num

lemma rawTSR_ramp_mono {a1 a2 : ℝ} (h0 : 1.5 < a1) (h12 : a1 < a2) (h2 : a2 ≤ 15) :
    rawTSR a1 < rawTSR a2 := by
  unfold rawTSR
  split_ifs <;> linarith

lemma rawTSR_decay_anti {a1 a2 : ℝ} (h1 : 15 ≤ a1) (h12 : a1 < a2) :
    rawTSR a2 < rawTSR a1 := by
  unfold rawTSR
  split_ifs <;> linarith

lemma dampingFactor_nonneg (p : DesignParams) : 0 ≤ dampingFactor p := by
  unfold dampingFactor
  split_ifs
  · exact le_max_left 0 _
  · norm_num

lemma dampingFactor_pos (p : DesignParams) (hw : 0 < p.windSpeed) :
    0 < dampingFactor p := by
  unfold dampingFactor
  split_ifs with h
  · have hm : 0 < minWindToSpin p := lt_trans hw h
    have : 0 < p.windSpeed / minWindToSpin p := div_pos hw hm
    exact lt_max_of_lt_right this
  · norm_num

lemma expectedTipSpeedRatio_nonneg (p : DesignParams) :
    0 ≤ expectedTipSpeedRatio p := by
  unfold expectedTipSpeedRatio
  exact mul_nonneg (rawTSR_nonneg (effectiveAlphaDeg_le p)) (dampingFactor_nonneg p)

/-! ### Claim theorems -/

/-- C1: the model is total (every `DesignParams` yields a `SimulationResult`),
and the regime switch at `rpm > 10` guards the divisions by `tipSpeed` in the
spinning branch: whenever that branch is taken with `bladeLength > 0`,
`tipSpeed` is strictly positive, so the advance-ratio division
`(windSpeed * cos alpha) / tipSpeed` is a genuine division by a nonzero
quantity. -/
theorem C1_regime_switch_guards_tipSpeed (p : DesignParams)
    (hL : 0 < p.bladeLength) (hspin : 10 < rpmRaw p) :
    0 < tipSpeed p ∧ advanceRatioVal p * tipSpeed p = vParallel p := by
  have h2pi : (0 : ℝ) < 2 * Real.pi := by positivity
  have hs := hspin
  unfold rpmRaw at hs
  rw [lt_div_iff₀ h2pi] at hs
  have hrps : 0 < radsPerSecond p := by nlinarith [Real.pi_gt_three]
  unfold radsPerSecond at hrps
  have hts : 0 < tipSpeed p := by
    rcases div_pos_iff.mp hrps with ⟨h, _⟩ | ⟨_, hneg⟩
    · exact h
    · linarith
  refine ⟨hts, ?_⟩
  rw [advanceRatioVal, if_pos hspin]
  field_simp

/-- C1 witness: a concrete spinning configuration (bladeLength 1 m, wind
10 m/s, lineAngle 75 deg, no tilt) takes the spinning branch and has strictly
positive tip speed. -/
def pC1 : DesignParams := ⟨1, 0.15, 4, 1, 200, 75, 10, 0.05, 0⟩

lemma pC1_tsr : expectedTipSpeedRatio pC1 = 8.5 := by
  simp only [expectedTipSpeedRatio, effectiveAlphaDeg, clamp90, rawTSR,
    dampingFactor, minWindToSpin, pC1]
  norm_num

lemma pC1_spin : 10 < rpmRaw pC1 := by
  have h2 : tipSpeed pC1 = 85 := by
    rw [tipSpeed, pC1_tsr]
    norm_num [pC1]
  have h3 : rpmRaw pC1 = 85 * 60 / (2 * Real.pi) := by
    rw [rpmRaw, radsPerSecond, h2]
    norm_num [pC1]
  rw [h3, lt_div_iff₀ (by positivity)]
  nlinarith [Real.pi_lt_four]

theorem C1_witness :
    0 < pC1.bladeLength ∧ 10 < rpmRaw pC1 ∧ 0 < tipSpeed pC1 := by
  have hL : 0 < pC1.bladeLength := by norm_num [pC1]
  exact ⟨hL, pC1_spin, (C1_regime_switch_guards_tipSpeed pC1 hL pC1_spin).1⟩

/-- C2: for every valid configuration (positive blade dimensions and mass,
nonnegative wind, lineAngle in [0, 90]), the returned result has `rpm ≥ 0` and
`stabilityScore` in [0, 100]. -/
theorem C2_rpm_and_stability_invariants (p : DesignParams)
    (hL : 0 < p.bladeLength) (hc : 0 < p.bladeChord) (hm : 0 < p.rotorMass)
    (hw : 0 ≤ p.windSpeed) (hla1 : 0 ≤ p.lineAngle) (hla2 : p.lineAngle ≤ 90) :
    0 ≤ (calculatePhysics p).rpm ∧ 0 ≤ (calculatePhysics p).stabilityScore ∧
      (calculatePhysics p).stabilityScore ≤ 100 := by
  refine ⟨?_, ?_, ?_⟩
  · show 0 ≤ round0 (rpmRaw p)
    apply round0_nonneg
    have hts : 0 ≤ tipSpeed p := mul_nonneg hw (expectedTipSpeedRatio_nonneg p)
    have hrps : 0 ≤ radsPerSecond p := div_nonneg hts hL.le
    unfold rpmRaw
    positivity
  · show 0 ≤ round0 (stabilityScoreVal p)
    apply round0_nonneg
    exact le_min (by norm_num) (le_max_left 0 _)
  · show round0 (stabilityScoreVal p) ≤ 100
    exact round0_le_100 (min_le_left _ _)

/-- C2 witness: the invariants hold at the spec's regression configuration. -/
def pC2 : DesignParams := ⟨1.2, 0.15, 4, 1.5, 200, 60, 10, 0.05, 0⟩

theorem C2_witness :
    0 ≤ (calculatePhysics pC2).rpm ∧ 0 ≤ (calculatePhysics pC2).stabilityScore ∧
      (calculatePhysics pC2).stabilityScore ≤ 100 :=
  C2_rpm_and_stability_invariants pC2 (by norm_num [pC2]) (by norm_num [pC2])
    (by norm_num [pC2]) (by norm_num [pC2]) (by norm_num [pC2]) (by norm_num [pC2])

/-- C3: at zero wind speed (other fields arbitrary valid values), the returned
result has `rpm = 0`, `generatedThrust = 0` and `lift = 0`. -/
theorem C3_zero_wind_degenerate (p : DesignParams)
    (hw : p.windSpeed = 0) (hL : 0 < p.bladeLength) :
    (calculatePhysics p).rpm = 0 ∧ (calculatePhysics p).generatedThrust = 0 ∧
      (calculatePhysics p).lift = 0 := by
  have hts : tipSpeed p = 0 := by rw [tipSpeed, hw, zero_mul]
  have hrpm : rpmRaw p = 0 := by
    rw [rpmRaw, radsPerSecond, hts, zero_div, zero_mul, zero_div]
  have hns : ¬(10 < rpmRaw p) := by rw [hrpm]; norm_num
  have hsd : stationaryDrag p = 0 := by rw [stationaryDrag, hw]; ring
  have hth : totalRotorThrust p = 0 := by rw [totalRotorThrust, if_neg hns, hsd]
  refine ⟨?_, ?_, ?_⟩
  · show round0 (rpmRaw p) = 0
    rw [hrpm, round0_zero]
  · show round2 (generatedThrust p) = 0
    rw [generatedThrust, hth, zero_mul, round2_zero]
  · show round2 (liftVal p) = 0
    rw [liftVal, if_neg hns, round2_zero]

/-- C3 witness: the zero-wind conclusion at a concrete configuration. -/
def pC3 : DesignParams := ⟨1.2, 0.15, 4, 1.5, 200, 60, 0, 0.05, 0⟩

theorem C3_witness :
    (calculatePhysics pC3).rpm = 0 ∧ (calculatePhysics pC3).generatedThrust = 0 ∧
      (calculatePhysics pC3).lift = 0 :=
  C3_zero_wind_degenerate pC3 (by norm_num [pC3]) (by norm_num [pC3])

lemma abs_round2_le_of_factor {b c : ℝ} (hc0 : 0 ≤ c) (hc1 : c ≤ 1) :
    |round2 (b * c)| ≤ |round2 b| := by
  rcases le_or_lt 0 b with hb | hb
  · have h1 : (0 : ℝ) ≤ b * c := mul_nonneg hb hc0
    have h2 : b * c ≤ b := by nlinarith
    have h3 : 0 ≤ round2 (b * c) := by
      have := round2_mono h1
      rwa [round2_zero] at this
    have h4 := round2_mono h2
    rw [abs_of_nonneg h3, abs_of_nonneg (le_trans h3 h4)]
    exact h4
  · have h1 : b ≤ b * c := by nlinarith
    have h2 : b * c ≤ 0 := mul_nonpos_of_nonpos_of_nonneg hb.le hc0
    have h3 : round2 (b * c) ≤ 0 := by
      have := round2_mono h2
      rwa [round2_zero] at this
    have h4 := round2_mono h1
    rw [abs_of_nonpos h3, abs_of_nonpos (le_trans h4 h3)]
    linarith

/-- C5: for `|rotorTilt| ≤ 90` degrees, the magnitude of the returned
`generatedThrust` never exceeds the magnitude of the returned
`totalRotorThrust`: `generatedThrust = totalRotorThrust * cos(rotorTilt)` with
`cos(rotorTilt) ∈ [0, 1]` on that range, and the inequality survives the
two-decimal rounding of both outputs. -/
theorem C5_generated_le_total (p : DesignParams) (h : |p.rotorTilt| ≤ 90) :
    |(calculatePhysics p).generatedThrust| ≤ |(calculatePhysics p).totalRotorThrust| := by
  show |round2 (generatedThrust p)| ≤ |round2 (totalRotorThrust p)|
  rw [generatedThrust]
  obtain ⟨h1, h2⟩ := abs_le.mp h
  refine abs_round2_le_of_factor ?_ (Real.cos_le_one _)
  apply Real.cos_nonneg_of_mem_Icc
  constructor
  · show -(Real.pi / 2) ≤ tiltRad p
    rw [tiltRad]
    nlinarith [Real.pi_pos]
  · show tiltRad p ≤ Real.pi / 2
    rw [tiltRad]
    nlinarith [Real.pi_pos]

/-- C5 witness: the projection bound at a concrete configuration with zero
tilt. -/
def pC5 : DesignParams := ⟨1.2, 0.15, 4, 1.5, 200, 60, 12, 0.05, 0⟩

theorem C5_witness :
    |pC5.rotorTilt| ≤ 90 ∧
      |(calculatePhysics pC5).generatedThrust| ≤ |(calculatePhysics pC5).totalRotorThrust| :=
  ⟨by norm_num [pC5], C5_generated_le_total pC5 (by norm_num [pC5])⟩

/-- C7: the anchor resultant is the componentwise sum of the kite-side vector
`(lineTension * cos lineAngle, lineTension * sin lineAngle)` and the rotor-side
vector `(drag, lift - gravity)`; `anchorTension` is its Euclidean magnitude,
`anchorAngle` its `atan2` in degrees (both reaching the output after the
documented rounding), and the magnitude is invariant to the order in which the
two component vectors are summed. -/
theorem C7_anchor_resultant (p : DesignParams) :
    anchorX p = fKiteX p + fRotorX p ∧
    anchorY p = fKiteY p + fRotorY p ∧
    anchorTensionVal p = Real.sqrt (anchorX p ^ 2 + anchorY p ^ 2) ∧
    anchorAngleDeg p = atan2 (anchorY p) (anchorX p) * (180 / Real.pi) ∧
    (calculatePhysics p).anchorAnalysis.anchorTension = round2 (anchorTensionVal p) ∧
    (calculatePhysics p).anchorAnalysis.anchorAngle = round1 (anchorAngleDeg p) ∧
    Real.sqrt ((fRotorX p + fKiteX p) ^ 2 + (fRotorY p + fKiteY p) ^ 2)
      = anchorTensionVal p := by
  refine ⟨rfl, rfl, rfl, rfl, rfl, rfl, ?_⟩
  have h : (fRotorX p + fKiteX p) ^ 2 + (fRotorY p + fKiteY p) ^ 2
      = anchorX p ^ 2 + anchorY p ^ 2 := by
    rw [anchorX, anchorY]
    ring
  rw [anchorTensionVal, h]

/-- C8 counterexample: at `lineAngle = 0.03, rotorTilt = 0` the clamp is a
no-op and the claimed value is `89.97`, but the returned `angleOfAttack` is the
1-decimal rounding `90`, so the output does not equal the clamped value as the
claim states. -/
def pC8x : DesignParams := ⟨1.2, 0.15, 4, 1.5, 200, 0.03, 10, 0.05, 0⟩

theorem C8_counterexample :
    (calculatePhysics pC8x).angleOfAttack
        ≠ clamp90 ((90 - pC8x.lineAngle) + pC8x.rotorTilt) ∧
      -90 ≤ (90 - pC8x.lineAngle) + pC8x.rotorTilt ∧
      (90 - pC8x.lineAngle) + pC8x.rotorTilt ≤ 90 := by
  have hc : clamp90 ((90 - pC8x.lineAngle) + pC8x.rotorTilt) = 89.97 := by
    simp only [clamp90, pC8x]
    norm_num
  have he : effectiveAlphaDeg pC8x = 89.97 := by
    simp only [effectiveAlphaDeg, clamp90, pC8x]
    norm_num
  have hr : round ((89.97 : ℝ) * 10) = 900 :=
    round_eq_of_bounds (by norm_num) (by norm_num)
  refine ⟨?_, by norm_num [pC8x], by norm_num [pC8x]⟩
  show round1 (effectiveAlphaDeg pC8x) ≠ _
  rw [he, hc, round1, hr]
  norm_num

/-- C8 amended: the `angleOfAttack` output equals
`(90 - lineAngle) + rotorTilt` clamped to [-90, 90] and then rounded to one
decimal place; out-of-range geometric inputs are clamped, never rejected, and
the clamped angle always lies in [-90, 90]. -/
theorem C8_angleOfAttack_clamped (p : DesignParams) :
    (calculatePhysics p).angleOfAttack
        = round1 (clamp90 ((90 - p.lineAngle) + p.rotorTilt)) ∧
      -90 ≤ effectiveAlphaDeg p ∧ effectiveAlphaDeg p ≤ 90 :=
  ⟨rfl, neg_le_effectiveAlphaDeg p, effectiveAlphaDeg_le p⟩

/-- C9: at `lineAngle = 90, rotorTilt = 0` the effective angle of attack is 0
and for every wind speed the tip-speed ratio, tip speed and rpm are all zero;
more generally any effective angle of attack at most 1.5 degrees gives a zero
tip-speed ratio. -/
theorem C9_dead_zone :
    (∀ p : DesignParams, p.lineAngle = 90 → p.rotorTilt = 0 →
      effectiveAlphaDeg p = 0 ∧ expectedTipSpeedRatio p = 0 ∧ tipSpeed p = 0 ∧
        rpmRaw p = 0 ∧ (calculatePhysics p).rpm = 0 ∧
        (calculatePhysics p).tipSpeed = 0) ∧
    (∀ p : DesignParams, effectiveAlphaDeg p ≤ 1.5 →
      expectedTipSpeedRatio p = 0) := by
  constructor
  · intro p hla ht
    have he : effectiveAlphaDeg p = 0 := by
      simp only [effectiveAlphaDeg, clamp90, hla, ht]
      norm_num
    have htsr : expectedTipSpeedRatio p = 0 := by
      rw [expectedTipSpeedRatio, he]
      have h0 : rawTSR 0 = 0 := by unfold rawTSR; norm_num
      rw [h0, zero_mul]
    have hts : tipSpeed p = 0 := by rw [tipSpeed, htsr, mul_zero]
    have hrpm : rpmRaw p = 0 := by
      rw [rpmRaw, radsPerSecond, hts, zero_div, zero_mul, zero_div]
    refine ⟨he, htsr, hts, hrpm, ?_, ?_⟩
    · show round0 (rpmRaw p) = 0
      rw [hrpm, round0_zero]
    · show round2 (tipSpeed p) = 0
      rw [hts, round2_zero]
  · intro p h
    rw [expectedTipSpeedRatio]
    have h0 : rawTSR (effectiveAlphaDeg p) = 0 := by
      unfold rawTSR
      rw [if_pos h]
    rw [h0, zero_mul]

/-- C9 witness: the dead zone at a concrete vertical-line configuration. -/
def pC9 : DesignParams := ⟨1.2, 0.15, 4, 1.5, 200, 90, 10, 0.05, 0⟩

theorem C9_witness :
    pC9.lineAngle = 90 ∧ pC9.rotorTilt = 0 ∧ effectiveAlphaDeg pC9 ≤ 1.5 ∧
      expectedTipSpeedRatio pC9 = 0 ∧ (calculatePhysics pC9).rpm = 0 := by
  have h := C9_dead_zone.1 pC9 (by norm_num [pC9]) (by norm_num [pC9])
  exact ⟨by norm_num [pC9], by norm_num [pC9], by rw [h.1]; norm_num,
    C9_dead_zone.2 pC9 (by rw [h.1]; norm_num), h.2.2.2.2.1⟩

/-- C10: every numeric field of the returned result is rounded at a fixed
precision: `rpm`, `stabilityScore` and `reynoldsNumber` to the nearest
integer; `angleOfAttack`, `anchorAngle`, `advancingVelocity`,
`retreatingVelocity`, `advancingAoA` and `retreatingAoA` to one decimal place;
all remaining scalar fields to two decimal places. -/
theorem C10_output_rounding (p : DesignParams) :
    (calculatePhysics p).rpm = ((round (rpmRaw p) : ℤ) : ℝ) ∧
    (calculatePhysics p).stabilityScore = ((round (stabilityScoreVal p) : ℤ) : ℝ) ∧
    (calculatePhysics p).bladeAerodynamics.reynoldsNumber
      = ((round (reynolds p) : ℤ) : ℝ) ∧
    (calculatePhysics p).angleOfAttack
      = ((round (effectiveAlphaDeg p * 10) : ℤ) : ℝ) / 10 ∧
    (calculatePhysics p).anchorAnalysis.anchorAngle
      = ((round (anchorAngleDeg p * 10) : ℤ) : ℝ) / 10 ∧
    (calculatePhysics p).bladeAerodynamics.advancingVelocity
      = ((round (advVel p * 10) : ℤ) : ℝ) / 10 ∧
    (calculatePhysics p).bladeAerodynamics.retreatingVelocity
      = ((round (retVel p * 10) : ℤ) : ℝ) / 10 ∧
    (calculatePhysics p).bladeAerodynamics.advancingAoA
      = ((round (advAoA p * 10) : ℤ) : ℝ) / 10 ∧
    (calculatePhysics p).bladeAerodynamics.retreatingAoA
      = ((round (retAoA p * 10) : ℤ) : ℝ) / 10 ∧
    (calculatePhysics p).generatedThrust
      = ((round (generatedThrust p * 100) : ℤ) : ℝ) / 100 ∧
    (calculatePhysics p).totalRotorThrust
      = ((round (totalRotorThrust p * 100) : ℤ) : ℝ) / 100 ∧
    (calculatePhysics p).lift = ((round (liftVal p * 100) : ℤ) : ℝ) / 100 ∧
    (calculatePhysics p).drag = ((round (dragVal p * 100) : ℤ) : ℝ) / 100 ∧
    (calculatePhysics p).gravity = ((round (gravity p * 100) : ℤ) : ℝ) / 100 ∧
    (calculatePhysics p).tipSpeed = ((round (tipSpeed p * 100) : ℤ) : ℝ) / 100 ∧
    (calculatePhysics p).tipSpeedRatio
      = ((round (expectedTipSpeedRatio p * 100) : ℤ) : ℝ) / 100 ∧
    (calculatePhysics p).powerOutput
      = ((round (powerOutput p * 100) : ℤ) : ℝ) / 100 ∧
    (calculatePhysics p).anchorAnalysis.anchorTension
      = ((round (anchorTensionVal p * 100) : ℤ) : ℝ) / 100 ∧
    (calculatePhysics p).anchorAnalysis.lowerLineTensionX
      = ((round (anchorX p * 100) : ℤ) : ℝ) / 100 ∧
    (calculatePhysics p).anchorAnalysis.lowerLineTensionY
      = ((round (anchorY p * 100) : ℤ) : ℝ) / 100 ∧
    (calculatePhysics p).bladeAerodynamics.inflowVelocity
      = ((round (vInflowVal p * 100) : ℤ) : ℝ) / 100 ∧
    (calculatePhysics p).bladeAerodynamics.advanceRatio
      = ((round (advanceRatioVal p * 100) : ℤ) : ℝ) / 100 :=
  ⟨rfl, rfl, rfl, rfl, rfl, rfl, rfl, rfl, rfl, rfl, rfl, rfl, rfl, rfl, rfl,
    rfl, rfl, rfl, rfl, rfl, rfl, rfl⟩

/-- C4: with `rotorTilt = 0` and a fixed positive wind speed, the tip-speed
ratio as a function of `lineAngle` attains its maximum at `lineAngle = 75`
(effective angle 15, value 8.5 scaled by the inertia-damping factor), is
strictly increasing in the effective angle on the ramp (lineAngle between 75
and 88.5, i.e. effective angle between 1.5 and 15) and strictly decreasing
from effective angle 15 to 90 (lineAngle from 75 down to 0): ramp-then-decay
around the peak. -/
theorem C4_tsr_peak_and_monotone (p : DesignParams)
    (ht : p.rotorTilt = 0) (hw : 0 < p.windSpeed) :
    expectedTipSpeedRatio { p with lineAngle := 75 } = 8.5 * dampingFactor p ∧
    (∀ la : ℝ, expectedTipSpeedRatio { p with lineAngle := la }
      ≤ expectedTipSpeedRatio { p with lineAngle := 75 }) ∧
    (∀ la1 la2 : ℝ, 75 ≤ la1 → la1 < la2 → la2 < 88.5 →
      expectedTipSpeedRatio { p with lineAngle := la2 }
        < expectedTipSpeedRatio { p with lineAngle := la1 }) ∧
    (∀ la1 la2 : ℝ, 0 ≤ la1 → la1 < la2 → la2 ≤ 75 →
      expectedTipSpeedRatio { p with lineAngle := la1 }
        < expectedTipSpeedRatio { p with lineAngle := la2 }) := by
  have hdamp : ∀ la : ℝ, dampingFactor { p with lineAngle := la } = dampingFactor p :=
    fun _ => rfl
  have heff : ∀ la : ℝ, 0 ≤ la → la ≤ 90 →
      effectiveAlphaDeg { p with lineAngle := la } = 90 - la := by
    intro la h0 h90
    show clamp90 ((90 - la) + p.rotorTilt) = 90 - la
    rw [ht]
    unfold clamp90
    split_ifs <;> linarith
  have hpeak : effectiveAlphaDeg { p with lineAngle := 75 } = 15 := by
    rw [heff 75 (by norm_num) (by norm_num)]
    norm_num
  refine ⟨?_, ?_, ?_, ?_⟩
  · rw [expectedTipSpeedRatio, hdamp, hpeak, rawTSR_peak]
  · intro la
    rw [expectedTipSpeedRatio, expectedTipSpeedRatio, hdamp, hdamp, hpeak, rawTSR_peak]
    exact mul_le_mul_of_nonneg_right rawTSR_le (dampingFactor_nonneg p)
  · intro la1 la2 h1 h12 h2
    rw [expectedTipSpeedRatio, expectedTipSpeedRatio, hdamp, hdamp,
      heff la1 (by linarith) (by linarith), heff la2 (by linarith) (by linarith)]
    exact mul_lt_mul_of_pos_right
      (rawTSR_ramp_mono (by linarith) (by linarith) (by linarith))
      (dampingFactor_pos p hw)
  · intro la1 la2 h1 h12 h2
    rw [expectedTipSpeedRatio, expectedTipSpeedRatio, hdamp, hdamp,
      heff la1 (by linarith) (by linarith), heff la2 (by linarith) (by linarith)]
    exact mul_lt_mul_of_pos_right
      (rawTSR_decay_anti (by linarith) (by linarith))
      (dampingFactor_pos p hw)

/-- C4 witness: peak dominance and both monotone sides at concrete line
angles for a concrete configuration. -/
def pC4 : DesignParams := ⟨1.2, 0.15, 4, 1.5, 200, 60, 10, 0.05, 0⟩

theorem C4_witness :
    pC4.rotorTilt = 0 ∧ 0 < pC4.windSpeed ∧
    expectedTipSpeedRatio { pC4 with lineAngle := 40 }
      ≤ expectedTipSpeedRatio { pC4 with lineAngle := 75 } ∧
    expectedTipSpeedRatio { pC4 with lineAngle := 85 }
      < expectedTipSpeedRatio { pC4 with lineAngle := 80 } ∧
    expectedTipSpeedRatio { pC4 with lineAngle := 50 }
      < expectedTipSpeedRatio { pC4 with lineAngle := 70 } := by
  have h := C4_tsr_peak_and_monotone pC4 (by norm_num [pC4]) (by norm_num [pC4])
  exact ⟨by norm_num [pC4], by norm_num [pC4], h.2.1 40,
    h.2.2.1 80 85 (by norm_num) (by norm_num) (by norm_num),
    h.2.2.2 50 70 (by norm_num) (by norm_num) (by norm_num)⟩

/-- C6 counterexample: at bladeLength 1, bladeChord 0.15, rotorMass 4,
lineAngle 0, windSpeed 0.5, rotorTilt 0 the stationary branch is taken
(rpm is about 2.8), the effective angle is 90 degrees so the flat-plate
formula gives exactly 0.055125 N, but the returned `drag` is its two-decimal
rounding 0.06 N — the returned field does not equal the formula. -/
def pC6x : DesignParams := ⟨1, 0.15, 4, 4, 200, 0, 0.5, 0.05, 0⟩

theorem C6_counterexample :
    rpmRaw pC6x ≤ 10 ∧
      (calculatePhysics pC6x).drag
        ≠ 0.5 * 1.225 * pC6x.windSpeed ^ 2
            * (2 * pC6x.bladeLength * pC6x.bladeChord) * 1.2
            * Real.sin (alphaRad pC6x) := by
  have he : effectiveAlphaDeg pC6x = 90 := by
    simp only [effectiveAlphaDeg, clamp90, pC6x]
    norm_num
  have halpha : alphaRad pC6x = Real.pi / 2 := by
    rw [alphaRad, he]
    ring
  have hsin : Real.sin (alphaRad pC6x) = 1 := by
    rw [halpha, Real.sin_pi_div_two]
  have hraw : rawTSR (90 : ℝ) = 3.5 := by
    unfold rawTSR
    norm_num
  have hd : dampingFactor pC6x = 1 / 6 := by
    unfold dampingFactor minWindToSpin
    rw [if_pos (by norm_num [pC6x])]
    rw [max_eq_right (by norm_num [pC6x])]
    norm_num [pC6x]
  have htsr : expectedTipSpeedRatio pC6x = 7 / 12 := by
    rw [expectedTipSpeedRatio, he, hraw, hd]
    norm_num
  have hts : tipSpeed pC6x = 7 / 24 := by
    rw [tipSpeed, htsr]
    norm_num [pC6x]
  have hrpm : rpmRaw pC6x = 8.75 / Real.pi := by
    rw [rpmRaw, radsPerSecond, hts]
    have hpi := Real.pi_ne_zero
    field_simp [pC6x]
    ring
  have hle : rpmRaw pC6x ≤ 10 := by
    rw [hrpm, div_le_iff₀ Real.pi_pos]
    nlinarith [Real.pi_gt_three]
  have hns : ¬(10 < rpmRaw pC6x) := not_lt.mpr hle
  have hsd : stationaryDrag pC6x = 0.055125 := by
    rw [stationaryDrag, hsin, bladeArea]
    norm_num [pC6x]
  have hdrag : dragVal pC6x = 0.055125 := by
    rw [dragVal, if_neg hns, hsd]
  have hr : round ((0.055125 : ℝ) * 100) = 6 :=
    round_eq_of_bounds (by norm_num) (by norm_num)
  refine ⟨hle, ?_⟩
  show round2 (dragVal pC6x) ≠ _
  rw [hdrag, round2, hr, hsin]
  norm_num [pC6x]

/-- C6 amended: whenever the computed (pre-rounding) rpm is at most 10, the
model is in the stationary/bluff-body regime: the computed lift is 0, the
computed drag is exactly `0.5 * 1.225 * windSpeed^2 * bladeArea * 1.2 *
sin(effectiveAlpha)` with `bladeArea = 2 * bladeLength * bladeChord`, the
computed total rotor thrust equals that drag, and in the returned result lift
is 0, drag and totalRotorThrust are the two-decimal rounding of that same
formula (hence equal to each other), and every `BladeAerodynamics` field is
zero. -/
theorem C6_stationary_regime (p : DesignParams) (h : rpmRaw p ≤ 10) :
    liftVal p = 0 ∧
    dragVal p = 0.5 * 1.225 * p.windSpeed ^ 2
        * (2 * p.bladeLength * p.bladeChord) * 1.2 * Real.sin (alphaRad p) ∧
    totalRotorThrust p = dragVal p ∧
    (calculatePhysics p).lift = 0 ∧
    (calculatePhysics p).drag = round2 (0.5 * 1.225 * p.windSpeed ^ 2
        * (2 * p.bladeLength * p.bladeChord) * 1.2 * Real.sin (alphaRad p)) ∧
    (calculatePhysics p).totalRotorThrust = (calculatePhysics p).drag ∧
    (calculatePhysics p).bladeAerodynamics.advancingVelocity = 0 ∧
    (calculatePhysics p).bladeAerodynamics.retreatingVelocity = 0 ∧
    (calculatePhysics p).bladeAerodynamics.inflowVelocity = 0 ∧
    (calculatePhysics p).bladeAerodynamics.advancingAoA = 0 ∧
    (calculatePhysics p).bladeAerodynamics.retreatingAoA = 0 ∧
    (calculatePhysics p).bladeAerodynamics.advanceRatio = 0 ∧
    (calculatePhysics p).bladeAerodynamics.reynoldsNumber = 0 := by
  have hns : ¬(10 < rpmRaw p) := not_lt.mpr h
  have hdrag : dragVal p = 0.5 * 1.225 * p.windSpeed ^ 2
      * (2 * p.bladeLength * p.bladeChord) * 1.2 * Real.sin (alphaRad p) := by
    rw [dragVal, if_neg hns, stationaryDrag, bladeArea]
  refine ⟨by rw [liftVal, if_neg hns], hdrag, ?_, ?_, ?_, ?_, ?_, ?_, ?_, ?_, ?_, ?_, ?_⟩
  · rw [totalRotorThrust, if_neg hns, dragVal, if_neg hns]
  · show round2 (liftVal p) = 0
    rw [liftVal, if_neg hns, round2_zero]
  · show round2 (dragVal p) = _
    rw [hdrag]
  · show round2 (totalRotorThrust p) = round2 (dragVal p)
    rw [totalRotorThrust, if_neg hns, dragVal, if_neg hns]
  · show round1 (advVel p) = 0
    rw [advVel, if_neg hns, round1_zero]
  · show round1 (retVel p) = 0
    rw [retVel, if_neg hns, round1_zero]
  · show round2 (vInflowVal p) = 0
    rw [vInflowVal, if_neg hns, round2_zero]
  · show round1 (advAoA p) = 0
    rw [advAoA, if_neg hns, round1_zero]
  · show round1 (retAoA p) = 0
    rw [retAoA, if_neg hns, round1_zero]
  · show round2 (advanceRatioVal p) = 0
    rw [advanceRatioVal, if_neg hns, round2_zero]
  · show round0 (reynolds p) = 0
    rw [reynolds, if_neg hns, round0_zero]

/-- C6 witness: the stationary-regime conclusions at a zero-wind
configuration, where the computed rpm is 0. -/
def pC6 : DesignParams := ⟨1.2, 0.15, 4, 1.5, 200, 60, 0, 0.05, 0⟩

theorem C6_witness :
    rpmRaw pC6 ≤ 10 ∧ (calculatePhysics pC6).lift = 0 ∧
      (calculatePhysics pC6).totalRotorThrust = (calculatePhysics pC6).drag ∧
      (calculatePhysics pC6).bladeAerodynamics.advanceRatio = 0 := by
  have hts : tipSpeed pC6 = 0 := by
    rw [tipSpeed]
    norm_num [pC6]
  have h : rpmRaw pC6 ≤ 10 := by
    rw [rpmRaw, radsPerSecond, hts, zero_div, zero_mul, zero_div]
    norm_num
  have hc := C6_stationary_regime pC6 h
  exact ⟨h, hc.2.2.2.1, hc.2.2.2.2.2.1, hc.2.2.2.2.2.2.2.2.2.2.2.1⟩

end
